import Mathlib

/-!
Verification development for the LPbackend blood-donation coordination
backend.  The definitions below are a shallow embedding of the JavaScript
source: the BloodRequest document model and its instance methods
(src/src/models/BloodRequest.js), the geospatial matcher statics
(BloodRequest.findNearbyRequests, User.findNearbyDonors and
User.findNearbyRequesters), the Firebase multicast wrapper
(src/src/config/firebase.js) and the POST /api/requests handler
(src/src/routes/otp.js).  JavaScript numbers that hold timestamps,
distances and coordinates are modelled as Int; document ids as Nat;
fallible methods (those that throw) return Except String.
-/

deriving instance DecidableEq for Except

namespace LPB

/-- Request lifecycle status, the enum of bloodRequestSchema.status. -/
inductive RequestStatus
  | PENDING
  | ACCEPTED
  | IN_PROGRESS
  | COMPLETED
  | CANCELLED
  | EXPIRED
  deriving DecidableEq, Repr

/-- Per-donor acceptance status, the enum of acceptedDonors[].status. -/
inductive DonorStatus
  | PENDING
  | CONFIRMED
  | COMPLETED
  | CANCELLED
  deriving DecidableEq, Repr

/-- One acceptedDonors array entry: donor reference, acceptedAt timestamp
(defaulted to Date.now at push time), entry status (defaulted to PENDING)
and free-form notes. -/
structure Acceptance where
  donor : Nat
  acceptedAt : Int
  status : DonorStatus
  notes : String
  deriving DecidableEq, Repr

/-- A GeoJSON Point, coordinates [longitude, latitude]. -/
structure GeoPoint where
  longitude : Int
  latitude : Int
  deriving DecidableEq, Repr

/-- The BloodRequest document fields relevant to the acceptance workflow. -/
structure BloodRequest where
  requester : Nat
  bloodGroup : String
  units : Nat
  hospitalName : String
  location : GeoPoint
  urgency : String
  status : RequestStatus
  requiredBy : Int
  acceptedDonors : List Acceptance
  deriving DecidableEq, Repr

/-- The isExpired virtual: new Date() > this.requiredBy. -/
def isExpired (now : Int) (r : BloodRequest) : Bool :=
  decide (r.requiredBy < now)

/-- The acceptedCount virtual: entries whose status is CONFIRMED or
COMPLETED. -/
def confirmedOrCompletedCount (l : List Acceptance) : Nat :=
  (l.filter fun a => a.status == .CONFIRMED || a.status == .COMPLETED).length

/-- Count of entries whose status is COMPLETED, as computed inside
updateDonorStatus. -/
def completedCount (l : List Acceptance) : Nat :=
  (l.filter fun a => a.status == .COMPLETED).length

/-- The pre-save middleware: if the document is expired and still PENDING,
flip the status to EXPIRED.  Every instance method below ends in
this.save(), which runs this hook. -/
def preSaveHook (now : Int) (r : BloodRequest) : BloodRequest :=
  if isExpired now r ∧ r.status = RequestStatus.PENDING then
    { r with status := RequestStatus.EXPIRED }
  else
    r

/-- The duplicate-acceptance lookup used by acceptDonor and
updateDonorStatus: this.acceptedDonors.find(a => a.donor equals donorId)
succeeds. -/
def hasDonor (donorId : Nat) (l : List Acceptance) : Bool :=
  l.any fun a => a.donor == donorId

/-- Instance method acceptDonor(donorId, notes): throws on a duplicate
donor, throws when acceptedDonors.length >= units, otherwise pushes a new
entry (status defaults to PENDING, acceptedAt to now), recomputes the
request status from the raw array length, and saves (running the pre-save
hook). -/
def acceptDonor (now : Int) (donorId : Nat) (notes : String) (r : BloodRequest) :
    Except String BloodRequest :=
  if hasDonor donorId r.acceptedDonors then
    .error "Donor already accepted for this request"
  else if r.units ≤ r.acceptedDonors.length then
    .error "No more units needed for this request"
  else
    let ds := r.acceptedDonors ++
      [{ donor := donorId, acceptedAt := now, status := .PENDING, notes := notes }]
    let st : RequestStatus :=
      if r.units ≤ ds.length then .ACCEPTED
      else if 0 < ds.length then .IN_PROGRESS
      else r.status
    .ok (preSaveHook now { r with acceptedDonors := ds, status := st })

/-- In-place mutation of the first matching acceptance entry, as done by
updateDonorStatus: the entry status is overwritten and the notes only when
the notes argument is truthy (non-empty). -/
def setDonorStatus (donorId : Nat) (st : DonorStatus) (notes : String) :
    List Acceptance → List Acceptance
  | [] => []
  | a :: rest =>
    if a.donor == donorId then
      { a with status := st, notes := if notes ≠ "" then notes else a.notes } :: rest
    else
      a :: setDonorStatus donorId st notes rest

/-- Instance method updateDonorStatus(donorId, status, notes): throws when
the donor is not in acceptedDonors, otherwise updates that entry,
recomputes the request status from the count of COMPLETED entries, and
saves (running the pre-save hook). -/
def updateDonorStatus (now : Int) (donorId : Nat) (st : DonorStatus) (notes : String)
    (r : BloodRequest) : Except String BloodRequest :=
  if hasDonor donorId r.acceptedDonors then
    let ds := setDonorStatus donorId st notes r.acceptedDonors
    let rst : RequestStatus :=
      if r.units ≤ completedCount ds then .COMPLETED
      else if 0 < ds.length then .IN_PROGRESS
      else r.status
    .ok (preSaveHook now { r with acceptedDonors := ds, status := rst })
  else
    .error "Donor not found in accepted donors"

/-- Instance method cancelRequest(): throws when the request is COMPLETED,
otherwise sets the status to CANCELLED and saves (running the pre-save
hook). -/
def cancelRequest (now : Int) (r : BloodRequest) : Except String BloodRequest :=
  if r.status = RequestStatus.COMPLETED then
    .error "Cannot cancel completed request"
  else
    .ok (preSaveHook now { r with status := RequestStatus.CANCELLED })

/-- One call on a BloodRequest document, with the wall-clock time at which
its save runs. -/
inductive Op
  | accept (now : Int) (donorId : Nat) (notes : String)
  | update (now : Int) (donorId : Nat) (st : DonorStatus) (notes : String)
  | cancel (now : Int)
  deriving Repr

/-- Dispatch one call to the corresponding instance method. -/
def runOp : Op → BloodRequest → Except String BloodRequest
  | .accept now d notes, r => acceptDonor now d notes r
  | .update now d st notes, r => updateDonorStatus now d st notes r
  | .cancel now, r => cancelRequest now r

/-- Effect of one call on the stored document: a throwing call happens
before any mutation, so the document is unchanged on error. -/
def applyOp (op : Op) (r : BloodRequest) : BloodRequest :=
  match runOp op r with
  | .ok r' => r'
  | .error _ => r

/-- Effect of a whole call sequence on the stored document. -/
def run (ops : List Op) (r : BloodRequest) : BloodRequest :=
  ops.foldl (fun s op => applyOp op s) r

/-- A freshly constructed BloodRequest, with the schema defaults
status = PENDING and acceptedDonors = []. -/
def mkRequest (requester : Nat) (bloodGroup : String) (units : Nat)
    (hospitalName : String) (loc : GeoPoint) (urgency : String)
    (requiredBy : Int) : BloodRequest :=
  { requester := requester, bloodGroup := bloodGroup, units := units,
    hospitalName := hospitalName, location := loc, urgency := urgency,
    status := RequestStatus.PENDING, requiredBy := requiredBy,
    acceptedDonors := [] }

/-! ### Basic facts about the pre-save hook and the helper counters -/

lemma preSaveHook_of_status_ne (now : Int) (r : BloodRequest)
    (h : r.status ≠ RequestStatus.PENDING) : preSaveHook now r = r := by
  unfold preSaveHook
  split
  · next hc => exact absurd hc.2 h
  · rfl

lemma preSaveHook_units (now : Int) (r : BloodRequest) :
    (preSaveHook now r).units = r.units := by
  unfold preSaveHook; split <;> rfl

lemma preSaveHook_acceptedDonors (now : Int) (r : BloodRequest) :
    (preSaveHook now r).acceptedDonors = r.acceptedDonors := by
  unfold preSaveHook; split <;> rfl

lemma hasDonor_length_pos {d : Nat} {l : List Acceptance}
    (h : hasDonor d l = true) : 0 < l.length := by
  cases l with
  | nil => simp [hasDonor] at h
  | cons a rest => simp

lemma setDonorStatus_length (d : Nat) (st : DonorStatus) (notes : String)
    (l : List Acceptance) : (setDonorStatus d st notes l).length = l.length := by
  induction l with
  | nil => rfl
  | cons a rest ih =>
    simp only [setDonorStatus]
    split <;> simp [ih]

lemma completedCount_le (l : List Acceptance) : completedCount l ≤ l.length :=
  List.length_filter_le _ _

lemma completedCount_append (l₁ l₂ : List Acceptance) :
    completedCount (l₁ ++ l₂) = completedCount l₁ + completedCount l₂ := by
  simp [completedCount, List.filter_append]

/-! ### Inversion lemmas: what a successful or failing method call implies -/

lemma acceptDonor_ok_spec {now : Int} {d : Nat} {notes : String}
    {r r' : BloodRequest} (h : acceptDonor now d notes r = .ok r') :
    hasDonor d r.acceptedDonors = false ∧
    r.acceptedDonors.length < r.units ∧
    r' = { r with
      acceptedDonors := r.acceptedDonors ++
        [{ donor := d, acceptedAt := now, status := DonorStatus.PENDING, notes := notes }],
      status := if r.units ≤ r.acceptedDonors.length + 1
                then RequestStatus.ACCEPTED else RequestStatus.IN_PROGRESS } := by
  simp only [acceptDonor] at h
  split at h
  · exact absurd h (by simp)
  · next hdup =>
    split at h
    · exact absurd h (by simp)
    · next hcap =>
      have h1 : hasDonor d r.acceptedDonors = false := by simpa using hdup
      have hlen : (r.acceptedDonors ++
          [({ donor := d, acceptedAt := now, status := DonorStatus.PENDING,
              notes := notes } : Acceptance)]).length = r.acceptedDonors.length + 1 := by
        simp
      refine ⟨h1, by omega, ?_⟩
      injection h with h
      rw [← h, preSaveHook_of_status_ne]
      · congr 1
        rw [hlen]
        split
        · rfl
        · simp
      · rw [hlen]
        split
        · simp
        · simp

lemma acceptDonor_error_of_dup {now : Int} {d : Nat} {notes : String}
    {r : BloodRequest} (h : hasDonor d r.acceptedDonors = true) :
    acceptDonor now d notes r = .error "Donor already accepted for this request" := by
  simp [acceptDonor, h]

lemma acceptDonor_error_of_full {now : Int} {d : Nat} {notes : String}
    {r : BloodRequest} (h1 : hasDonor d r.acceptedDonors = false)
    (h2 : r.units ≤ r.acceptedDonors.length) :
    acceptDonor now d notes r = .error "No more units needed for this request" := by
  simp [acceptDonor, h1, h2]

lemma updateDonorStatus_ok_spec {now : Int} {d : Nat} {st : DonorStatus}
    {notes : String} {r r' : BloodRequest}
    (h : updateDonorStatus now d st notes r = .ok r') :
    hasDonor d r.acceptedDonors = true ∧
    r' = { r with
      acceptedDonors := setDonorStatus d st notes r.acceptedDonors,
      status := if r.units ≤ completedCount (setDonorStatus d st notes r.acceptedDonors)
                then RequestStatus.COMPLETED else RequestStatus.IN_PROGRESS } := by
  simp only [updateDonorStatus] at h
  split at h
  · next hmem =>
    have hpos : 0 < (setDonorStatus d st notes r.acceptedDonors).length := by
      rw [setDonorStatus_length]; exact hasDonor_length_pos hmem
    refine ⟨hmem, ?_⟩
    injection h with h
    rw [← h, preSaveHook_of_status_ne]
    · congr 1
      split
      · rfl
      · simp [hpos]
    · split
      · simp
      · simp [hpos]
  · exact absurd h (by simp)

lemma updateDonorStatus_error {now : Int} {d : Nat} {st : DonorStatus}
    {notes : String} {r : BloodRequest} (h : hasDonor d r.acceptedDonors = false) :
    updateDonorStatus now d st notes r = .error "Donor not found in accepted donors" := by
  simp [updateDonorStatus, h]

lemma cancelRequest_ok_spec {now : Int} {r r' : BloodRequest}
    (h : cancelRequest now r = .ok r') :
    r.status ≠ RequestStatus.COMPLETED ∧
    r' = { r with status := RequestStatus.CANCELLED } := by
  simp only [cancelRequest] at h
  split at h
  · exact absurd h (by simp)
  · next hne =>
    refine ⟨hne, ?_⟩
    injection h with h
    rw [← h, preSaveHook_of_status_ne]
    simp

lemma cancelRequest_error {now : Int} {r : BloodRequest}
    (h : r.status = RequestStatus.COMPLETED) :
    cancelRequest now r = .error "Cannot cancel completed request" := by
  simp [cancelRequest, h]

lemma cancelRequest_ok_of_ne {now : Int} {r : BloodRequest}
    (h : r.status ≠ RequestStatus.COMPLETED) :
    cancelRequest now r = .ok { r with status := RequestStatus.CANCELLED } := by
  simp only [cancelRequest]
  rw [if_neg h, preSaveHook_of_status_ne]
  simp

lemma applyOp_of_ok {op : Op} {r r' : BloodRequest} (h : runOp op r = .ok r') :
    applyOp op r = r' := by
  simp [applyOp, h]

lemma applyOp_of_error {op : Op} {r : BloodRequest} {e : String}
    (h : runOp op r = .error e) : applyOp op r = r := by
  simp [applyOp, h]

lemma run_nil (r : BloodRequest) : run [] r = r := rfl

lemma run_cons (op : Op) (ops : List Op) (r : BloodRequest) :
    run (op :: ops) r = run ops (applyOp op r) := rfl

lemma completedCount_singleton_pending (d : Nat) (t : Int) (n : String) :
    completedCount [Acceptance.mk d t DonorStatus.PENDING n] = 0 := rfl

/-! ### The capacity invariant (acceptedDonors.length stays at most units) -/

lemma applyOp_lenInv (op : Op) (r : BloodRequest)
    (h : r.acceptedDonors.length ≤ r.units) :
    (applyOp op r).acceptedDonors.length ≤ (applyOp op r).units := by
  cases hE : runOp op r with
  | error e => rw [applyOp_of_error hE]; exact h
  | ok r' =>
    rw [applyOp_of_ok hE]
    cases op with
    | accept now d notes =>
      obtain ⟨h1, h2, h3⟩ := acceptDonor_ok_spec hE
      subst h3
      simp only [List.length_append, List.length_singleton]
      omega
    | update now d st notes =>
      obtain ⟨h1, h2⟩ := updateDonorStatus_ok_spec hE
      subst h2
      simpa [setDonorStatus_length] using h
    | cancel now =>
      obtain ⟨h1, h2⟩ := cancelRequest_ok_spec hE
      subst h2
      simpa using h

lemma run_lenInv (ops : List Op) (r : BloodRequest)
    (h : r.acceptedDonors.length ≤ r.units) :
    (run ops r).acceptedDonors.length ≤ (run ops r).units := by
  induction ops generalizing r with
  | nil => exact h
  | cons op ops ih =>
    rw [run_cons]
    exact ih _ (applyOp_lenInv op r h)

/-! ### The status-derivation invariant for COMPLETED -/

/-- Invariant relating the request status to the count of COMPLETED
acceptance entries. -/
def CompInv (r : BloodRequest) : Prop :=
  r.status = RequestStatus.COMPLETED ↔ r.units ≤ completedCount r.acceptedDonors

lemma applyOp_compInv (op : Op) (r : BloodRequest) (h : CompInv r) :
    CompInv (applyOp op r) := by
  cases hE : runOp op r with
  | error e => rw [applyOp_of_error hE]; exact h
  | ok r' =>
    rw [applyOp_of_ok hE]
    cases op with
    | accept now d notes =>
      obtain ⟨h1, h2, h3⟩ := acceptDonor_ok_spec hE
      subst h3
      have hle := completedCount_le r.acceptedDonors
      constructor
      · intro hc
        exfalso
        revert hc
        simp only []
        split <;> simp
      · intro hc
        exfalso
        simp only [completedCount_append, completedCount_singleton_pending] at hc
        omega
    | update now d st notes =>
      obtain ⟨h1, h2⟩ := updateDonorStatus_ok_spec hE
      subst h2
      constructor
      · intro hc
        revert hc
        simp only []
        split
        · next hge => intro _; exact hge
        · simp
      · intro hc
        simp only [] at hc ⊢
        split
        · rfl
        · next hlt => exact absurd hc hlt
    | cancel now =>
      obtain ⟨h1, h2⟩ := cancelRequest_ok_spec hE
      subst h2
      constructor
      · intro hc; exact absurd hc (by simp)
      · intro hc
        exact absurd (h.mpr hc) h1

lemma run_compInv (ops : List Op) (r : BloodRequest) (h : CompInv r) :
    CompInv (run ops r) := by
  induction ops generalizing r with
  | nil => exact h
  | cons op ops ih =>
    rw [run_cons]
    exact ih _ (applyOp_compInv op r h)

lemma acceptDonor_error_spec {now : Int} {d : Nat} {notes : String}
    {r : BloodRequest} {e : String} (h : acceptDonor now d notes r = .error e) :
    hasDonor d r.acceptedDonors = true ∨ r.units ≤ r.acceptedDonors.length := by
  simp only [acceptDonor] at h
  split at h
  · next hdup => exact Or.inl hdup
  · split at h
    · next hcap => exact Or.inr hcap
    · exact absurd h (by simp)

/-! ### Claim theorems for the acceptance workflow -/

/-- C1 (amended).  Capacity invariant: from a freshly created request
(empty acceptedDonors) every sequence of acceptDonor, updateDonorStatus
and cancelRequest calls keeps acceptedDonors.length at most units; an
acceptDonor call at capacity whose donor is not already in the list fails
with the capacity error, and any acceptDonor call at capacity (whichever
of the two errors it raises) appends no entry. -/
theorem acceptDonor_capacity_spec :
    (∀ (ops : List Op) (r0 : BloodRequest), r0.acceptedDonors = [] →
       (run ops r0).acceptedDonors.length ≤ (run ops r0).units) ∧
    (∀ (now : Int) (d : Nat) (notes : String) (r : BloodRequest),
       r.units ≤ r.acceptedDonors.length → hasDonor d r.acceptedDonors = false →
       acceptDonor now d notes r = .error "No more units needed for this request") ∧
    (∀ (now : Int) (d : Nat) (notes : String) (r : BloodRequest),
       r.units ≤ r.acceptedDonors.length →
       applyOp (Op.accept now d notes) r = r) := by
  refine ⟨?_, ?_, ?_⟩
  · intro ops r0 h0
    apply run_lenInv
    rw [h0]
    simp
  · intro now d notes r hfull hdup
    exact acceptDonor_error_of_full hdup hfull
  · intro now d notes r hfull
    cases hD : hasDonor d r.acceptedDonors with
    | true => exact applyOp_of_error (acceptDonor_error_of_dup hD)
    | false => exact applyOp_of_error (acceptDonor_error_of_full hD hfull)

/-- C1 counterexample.  At a reachable full request whose accepted donor
repeats the call, acceptDonor fails with the duplicate error rather than
the capacity error, even though acceptedDonors.length has reached units:
the duplicate check precedes the capacity check. -/
theorem acceptDonor_capacity_error_cex :
    (run [Op.accept 0 5 ""] (mkRequest 1 "O+" 1 "H" ⟨0, 0⟩ "MEDIUM" 1000)).units ≤
      (run [Op.accept 0 5 ""] (mkRequest 1 "O+" 1 "H" ⟨0, 0⟩ "MEDIUM" 1000)).acceptedDonors.length ∧
    acceptDonor 0 5 "" (run [Op.accept 0 5 ""] (mkRequest 1 "O+" 1 "H" ⟨0, 0⟩ "MEDIUM" 1000)) =
      .error "Donor already accepted for this request" ∧
    acceptDonor 0 5 "" (run [Op.accept 0 5 ""] (mkRequest 1 "O+" 1 "H" ⟨0, 0⟩ "MEDIUM" 1000)) ≠
      .error "No more units needed for this request" := by
  decide

/-- C1 witness: the capacity invariant evaluated on a concrete
three-accept run against a two-unit request. -/
theorem acceptDonor_capacity_spec_witness :
    (run [Op.accept 0 1 "", Op.accept 0 2 "", Op.accept 0 3 ""]
        (mkRequest 9 "O+" 2 "H" ⟨0, 0⟩ "MEDIUM" 1000)).acceptedDonors.length ≤
      (run [Op.accept 0 1 "", Op.accept 0 2 "", Op.accept 0 3 ""]
        (mkRequest 9 "O+" 2 "H" ⟨0, 0⟩ "MEDIUM" 1000)).units :=
  acceptDonor_capacity_spec.1
    [Op.accept 0 1 "", Op.accept 0 2 "", Op.accept 0 3 ""]
    (mkRequest 9 "O+" 2 "H" ⟨0, 0⟩ "MEDIUM" 1000) rfl

/-- C2 (amended).  After any sequence of acceptDonor and updateDonorStatus
calls on a fresh request, status is COMPLETED iff the count of COMPLETED
entries has reached units; the ACCEPTED clause however follows the raw
array length: a successful acceptDonor leaves status ACCEPTED exactly when
acceptedDonors.length has reached units (regardless of entry statuses),
and a successful updateDonorStatus never leaves status ACCEPTED. -/
theorem status_derivation_spec :
    (∀ (ops : List Op) (r0 : BloodRequest),
       r0.acceptedDonors = [] → r0.status = RequestStatus.PENDING → 1 ≤ r0.units →
       ((run ops r0).status = RequestStatus.COMPLETED ↔
          (run ops r0).units ≤ completedCount (run ops r0).acceptedDonors)) ∧
    (∀ (now : Int) (d : Nat) (notes : String) (r r' : BloodRequest),
       acceptDonor now d notes r = .ok r' →
       (r'.status = RequestStatus.ACCEPTED ↔ r'.units ≤ r'.acceptedDonors.length)) ∧
    (∀ (now : Int) (d : Nat) (st : DonorStatus) (notes : String) (r r' : BloodRequest),
       updateDonorStatus now d st notes r = .ok r' →
       r'.status ≠ RequestStatus.ACCEPTED) := by
  refine ⟨?_, ?_, ?_⟩
  · intro ops r0 hD hS hU
    apply run_compInv
    unfold CompInv
    rw [hS, hD]
    constructor
    · intro hc; exact absurd hc (by simp)
    · intro hc
      exfalso
      simp only [completedCount, List.filter_nil, List.length_nil] at hc
      omega
  · intro now d notes r r' h
    obtain ⟨h1, h2, h3⟩ := acceptDonor_ok_spec h
    subst h3
    simp only [List.length_append, List.length_singleton]
    split
    · next hge => simp [hge]
    · next hlt => simp [hlt]
  · intro now d st notes r r' h
    obtain ⟨h1, h2⟩ := updateDonorStatus_ok_spec h
    subst h2
    simp only []
    split <;> simp

/-- C2 counterexample.  A fresh one-unit request accepted by a single
donor ends in status ACCEPTED while its count of CONFIRMED-or-COMPLETED
entries is still below units (the new entry has status PENDING), so
status == ACCEPTED iff confirmedOrCompletedCount >= units fails. -/
theorem status_accepted_rule_cex :
    (run [Op.accept 0 7 ""] (mkRequest 1 "O+" 1 "H" ⟨0, 0⟩ "MEDIUM" 1000)).status =
      RequestStatus.ACCEPTED ∧
    confirmedOrCompletedCount
        (run [Op.accept 0 7 ""] (mkRequest 1 "O+" 1 "H" ⟨0, 0⟩ "MEDIUM" 1000)).acceptedDonors <
      (run [Op.accept 0 7 ""] (mkRequest 1 "O+" 1 "H" ⟨0, 0⟩ "MEDIUM" 1000)).units := by
  decide

/-- C2 witness: the COMPLETED-iff rule evaluated on a concrete run that
accepts one donor and marks it COMPLETED against a one-unit request. -/
theorem status_derivation_spec_witness :
    (run [Op.accept 0 7 "", Op.update 0 7 DonorStatus.COMPLETED ""]
        (mkRequest 1 "O+" 1 "H" ⟨0, 0⟩ "MEDIUM" 1000)).status = RequestStatus.COMPLETED ↔
      (run [Op.accept 0 7 "", Op.update 0 7 DonorStatus.COMPLETED ""]
          (mkRequest 1 "O+" 1 "H" ⟨0, 0⟩ "MEDIUM" 1000)).units ≤
        completedCount (run [Op.accept 0 7 "", Op.update 0 7 DonorStatus.COMPLETED ""]
          (mkRequest 1 "O+" 1 "H" ⟨0, 0⟩ "MEDIUM" 1000)).acceptedDonors :=
  status_derivation_spec.1
    [Op.accept 0 7 "", Op.update 0 7 DonorStatus.COMPLETED ""]
    (mkRequest 1 "O+" 1 "H" ⟨0, 0⟩ "MEDIUM" 1000) rfl rfl (by decide)

/-- C3.  Success postcondition of acceptDonor: when the donor is not yet
in acceptedDonors and the list is below units, the call succeeds,
appends exactly one entry with status PENDING, and sets the request status
to ACCEPTED when the new length reaches units and to IN_PROGRESS
otherwise. -/
theorem acceptDonor_success_postcondition (now : Int) (d : Nat) (notes : String)
    (r : BloodRequest) (h1 : hasDonor d r.acceptedDonors = false)
    (h2 : r.acceptedDonors.length < r.units) :
    acceptDonor now d notes r = .ok { r with
      acceptedDonors := r.acceptedDonors ++ [Acceptance.mk d now DonorStatus.PENDING notes],
      status := if r.units ≤ r.acceptedDonors.length + 1
                then RequestStatus.ACCEPTED else RequestStatus.IN_PROGRESS } := by
  cases hE : acceptDonor now d notes r with
  | error e =>
    rcases acceptDonor_error_spec hE with hc | hc
    · rw [h1] at hc; exact absurd hc (by simp)
    · omega
  | ok r' =>
    obtain ⟨_, _, h3⟩ := acceptDonor_ok_spec hE
    rw [h3]

/-- C3 witness: a second distinct donor accepting a two-unit request
leaves it ACCEPTED, and a third accept attempt then fails with the
capacity error. -/
theorem acceptDonor_success_postcondition_witness :
    acceptDonor 0 2 "" (run [Op.accept 0 1 ""] (mkRequest 9 "O+" 2 "H" ⟨0, 0⟩ "MEDIUM" 1000)) =
      .ok { run [Op.accept 0 1 ""] (mkRequest 9 "O+" 2 "H" ⟨0, 0⟩ "MEDIUM" 1000) with
        acceptedDonors :=
          (run [Op.accept 0 1 ""] (mkRequest 9 "O+" 2 "H" ⟨0, 0⟩ "MEDIUM" 1000)).acceptedDonors ++
            [Acceptance.mk 2 0 DonorStatus.PENDING ""],
        status := if (run [Op.accept 0 1 ""] (mkRequest 9 "O+" 2 "H" ⟨0, 0⟩ "MEDIUM" 1000)).units ≤
            (run [Op.accept 0 1 ""]
              (mkRequest 9 "O+" 2 "H" ⟨0, 0⟩ "MEDIUM" 1000)).acceptedDonors.length + 1
          then RequestStatus.ACCEPTED else RequestStatus.IN_PROGRESS } ∧
    (run [Op.accept 0 1 "", Op.accept 0 2 ""]
        (mkRequest 9 "O+" 2 "H" ⟨0, 0⟩ "MEDIUM" 1000)).status = RequestStatus.ACCEPTED ∧
    acceptDonor 0 3 "" (run [Op.accept 0 1 "", Op.accept 0 2 ""]
        (mkRequest 9 "O+" 2 "H" ⟨0, 0⟩ "MEDIUM" 1000)) =
      .error "No more units needed for this request" :=
  ⟨acceptDonor_success_postcondition 0 2 ""
      (run [Op.accept 0 1 ""] (mkRequest 9 "O+" 2 "H" ⟨0, 0⟩ "MEDIUM" 1000))
      (by decide) (by decide),
   by decide, by decide⟩

/-- C4.  Duplicate acceptance is rejected atomically: after a successful
acceptDonor for a donor, a second acceptDonor call with the same donor
fails with the duplicate error and leaves the stored document exactly as
the first call left it. -/
theorem acceptDonor_duplicate_rejected (now now' : Int) (d : Nat)
    (notes notes' : String) (r r₁ : BloodRequest)
    (h : acceptDonor now d notes r = .ok r₁) :
    acceptDonor now' d notes' r₁ = .error "Donor already accepted for this request" ∧
    applyOp (Op.accept now' d notes') r₁ = r₁ := by
  obtain ⟨h1, h2, h3⟩ := acceptDonor_ok_spec h
  have hmem : hasDonor d r₁.acceptedDonors = true := by
    subst h3
    simp [hasDonor]
  exact ⟨acceptDonor_error_of_dup hmem, applyOp_of_error (acceptDonor_error_of_dup hmem)⟩

/-- C4 witness: the duplicate rejection evaluated on a concrete request
that donor 5 accepts twice. -/
theorem acceptDonor_duplicate_rejected_witness :
    acceptDonor 1 5 "" (run [Op.accept 0 5 ""] (mkRequest 9 "O+" 2 "H" ⟨0, 0⟩ "MEDIUM" 1000)) =
      .error "Donor already accepted for this request" ∧
    applyOp (Op.accept 1 5 "")
        (run [Op.accept 0 5 ""] (mkRequest 9 "O+" 2 "H" ⟨0, 0⟩ "MEDIUM" 1000)) =
      run [Op.accept 0 5 ""] (mkRequest 9 "O+" 2 "H" ⟨0, 0⟩ "MEDIUM" 1000) :=
  acceptDonor_duplicate_rejected 0 1 5 "" ""
    (mkRequest 9 "O+" 2 "H" ⟨0, 0⟩ "MEDIUM" 1000)
    (run [Op.accept 0 5 ""] (mkRequest 9 "O+" 2 "H" ⟨0, 0⟩ "MEDIUM" 1000))
    (by decide)

/-- C5 (amended).  The instance methods recompute the request status
rather than enforce a forward-only order: a successful acceptDonor sets
ACCEPTED when the raw list reaches units and IN_PROGRESS otherwise, a
successful updateDonorStatus sets COMPLETED when the COMPLETED-entry count
reaches units and IN_PROGRESS otherwise (so it can move an ACCEPTED or
COMPLETED request back to IN_PROGRESS), and a successful cancelRequest
always sets CANCELLED. -/
theorem status_recomputation_spec :
    (∀ (now : Int) (d : Nat) (notes : String) (r r' : BloodRequest),
       acceptDonor now d notes r = .ok r' →
       r'.status = (if r.units ≤ r.acceptedDonors.length + 1
                    then RequestStatus.ACCEPTED else RequestStatus.IN_PROGRESS)) ∧
    (∀ (now : Int) (d : Nat) (st : DonorStatus) (notes : String) (r r' : BloodRequest),
       updateDonorStatus now d st notes r = .ok r' →
       r'.status = (if r.units ≤ completedCount r'.acceptedDonors
                    then RequestStatus.COMPLETED else RequestStatus.IN_PROGRESS)) ∧
    (∀ (now : Int) (r r' : BloodRequest),
       cancelRequest now r = .ok r' → r'.status = RequestStatus.CANCELLED) := by
  refine ⟨?_, ?_, ?_⟩
  · intro now d notes r r' h
    obtain ⟨h1, h2, h3⟩ := acceptDonor_ok_spec h
    subst h3
    simp only [List.length_append, List.length_singleton]
  · intro now d st notes r r' h
    obtain ⟨h1, h2⟩ := updateDonorStatus_ok_spec h
    subst h2
    rfl
  · intro now r r' h
    obtain ⟨h1, h2⟩ := cancelRequest_ok_spec h
    subst h2
    rfl

/-- C5 counterexample.  A two-unit request accepted by two donors is
ACCEPTED; marking one of them CONFIRMED then moves the status backward to
IN_PROGRESS, refuting the forward-only lifecycle. -/
theorem status_backward_move_cex :
    (run [Op.accept 0 1 "", Op.accept 0 2 ""]
        (mkRequest 9 "O+" 2 "H" ⟨0, 0⟩ "MEDIUM" 1000)).status = RequestStatus.ACCEPTED ∧
    (run [Op.accept 0 1 "", Op.accept 0 2 "", Op.update 0 1 DonorStatus.CONFIRMED ""]
        (mkRequest 9 "O+" 2 "H" ⟨0, 0⟩ "MEDIUM" 1000)).status = RequestStatus.IN_PROGRESS := by
  decide

/-- C5 witness: the updateDonorStatus status recomputation evaluated on a
concrete CONFIRMED update below target. -/
theorem status_recomputation_spec_witness :
    (run [Op.accept 0 1 "", Op.accept 0 2 "", Op.update 0 1 DonorStatus.CONFIRMED ""]
        (mkRequest 9 "O+" 2 "H" ⟨0, 0⟩ "MEDIUM" 1000)).status =
      (if (run [Op.accept 0 1 "", Op.accept 0 2 ""]
            (mkRequest 9 "O+" 2 "H" ⟨0, 0⟩ "MEDIUM" 1000)).units ≤
          completedCount (run [Op.accept 0 1 "", Op.accept 0 2 "",
              Op.update 0 1 DonorStatus.CONFIRMED ""]
            (mkRequest 9 "O+" 2 "H" ⟨0, 0⟩ "MEDIUM" 1000)).acceptedDonors
       then RequestStatus.COMPLETED else RequestStatus.IN_PROGRESS) :=
  status_recomputation_spec.2.1 0 1 DonorStatus.CONFIRMED ""
    (run [Op.accept 0 1 "", Op.accept 0 2 ""] (mkRequest 9 "O+" 2 "H" ⟨0, 0⟩ "MEDIUM" 1000))
    (run [Op.accept 0 1 "", Op.accept 0 2 "", Op.update 0 1 DonorStatus.CONFIRMED ""]
      (mkRequest 9 "O+" 2 "H" ⟨0, 0⟩ "MEDIUM" 1000))
    (by decide)

/-- C6.  cancelRequest fails (with the invalid-transition error) iff the
current status is COMPLETED, leaving the document unchanged in that case;
from every other status it succeeds and sets exactly the status field to
CANCELLED. -/
theorem cancelRequest_raises_iff (now : Int) (r : BloodRequest) :
    (cancelRequest now r = .error "Cannot cancel completed request" ↔
       r.status = RequestStatus.COMPLETED) ∧
    (r.status = RequestStatus.COMPLETED → applyOp (Op.cancel now) r = r) ∧
    (r.status ≠ RequestStatus.COMPLETED →
       cancelRequest now r = .ok { r with status := RequestStatus.CANCELLED }) := by
  refine ⟨⟨?_, cancelRequest_error⟩, ?_, cancelRequest_ok_of_ne⟩
  · intro h
    by_contra hne
    rw [cancelRequest_ok_of_ne hne] at h
    exact absurd h (by simp)
  · intro hc
    exact applyOp_of_error (cancelRequest_error hc)

/-- C6 witness: cancelling a concrete IN_PROGRESS request succeeds and
sets CANCELLED, and cancelling a concrete COMPLETED request fails with the
invalid-transition error. -/
theorem cancelRequest_raises_iff_witness :
    cancelRequest 0 (run [Op.accept 0 5 ""] (mkRequest 9 "O+" 2 "H" ⟨0, 0⟩ "MEDIUM" 1000)) =
      .ok { run [Op.accept 0 5 ""] (mkRequest 9 "O+" 2 "H" ⟨0, 0⟩ "MEDIUM" 1000) with
            status := RequestStatus.CANCELLED } ∧
    cancelRequest 0 (run [Op.accept 0 5 "", Op.update 0 5 DonorStatus.COMPLETED ""]
        (mkRequest 9 "O+" 1 "H" ⟨0, 0⟩ "MEDIUM" 1000)) =
      .error "Cannot cancel completed request" :=
  ⟨(cancelRequest_raises_iff 0
      (run [Op.accept 0 5 ""] (mkRequest 9 "O+" 2 "H" ⟨0, 0⟩ "MEDIUM" 1000))).2.2 (by decide),
   (cancelRequest_raises_iff 0
      (run [Op.accept 0 5 "", Op.update 0 5 DonorStatus.COMPLETED ""]
        (mkRequest 9 "O+" 1 "H" ⟨0, 0⟩ "MEDIUM" 1000))).1.mpr (by decide)⟩

/-! ### Expiry on load versus save (claim C7) -/

/-- Loading a stored BloodRequest document: bloodRequestSchema registers a
pre-save middleware only and no init or find middleware, so a load returns
the stored fields unchanged; nothing in the model flips an expired PENDING
request at read time. -/
def loadRequest (r : BloodRequest) : BloodRequest := r

/-- C7 counterexample.  A PENDING request whose requiredBy is already in
the past is not moved to EXPIRED by a load: the expiry check lives only in
the pre-save hook. -/
theorem expiry_on_load_cex :
    isExpired 100 (mkRequest 1 "O+" 1 "H" ⟨0, 0⟩ "MEDIUM" 0) = true ∧
    (mkRequest 1 "O+" 1 "H" ⟨0, 0⟩ "MEDIUM" 0).status = RequestStatus.PENDING ∧
    (loadRequest (mkRequest 1 "O+" 1 "H" ⟨0, 0⟩ "MEDIUM" 0)).status ≠
      RequestStatus.EXPIRED := by
  decide

/-- C7 (amended).  The expiry check runs in the pre-save hook, not on
load: a load returns the stored document unchanged, while a save of a
PENDING document whose requiredBy has passed flips exactly the status to
EXPIRED; documents in any other status, or not yet expired, are returned
by the hook unchanged. -/
theorem expiry_hook_spec (now : Int) (r : BloodRequest) :
    loadRequest r = r ∧
    (r.status = RequestStatus.PENDING → isExpired now r = true →
       preSaveHook now r = { r with status := RequestStatus.EXPIRED }) ∧
    (r.status ≠ RequestStatus.PENDING → preSaveHook now r = r) ∧
    (isExpired now r = false → preSaveHook now r = r) := by
  refine ⟨rfl, ?_, preSaveHook_of_status_ne now r, ?_⟩
  · intro hs he
    unfold preSaveHook
    rw [if_pos ⟨he, hs⟩]
  · intro he
    unfold preSaveHook
    rw [if_neg]
    rintro ⟨h1, _⟩
    rw [he] at h1
    cases h1

/-- C7 witness: the pre-save hook evaluated on a concrete expired PENDING
request flips it to EXPIRED. -/
theorem expiry_hook_spec_witness :
    preSaveHook 100 (mkRequest 1 "O+" 1 "H" ⟨0, 0⟩ "MEDIUM" 0) =
      { mkRequest 1 "O+" 1 "H" ⟨0, 0⟩ "MEDIUM" 0 with status := RequestStatus.EXPIRED } :=
  (expiry_hook_spec 100 (mkRequest 1 "O+" 1 "H" ⟨0, 0⟩ "MEDIUM" 0)).2.1 rfl (by decide)

/-! ### The proximity matcher (claims C8 and C10) -/

/-- A stored user-directory document, with the fields the matcher queries
touch (userSchema). -/
structure StoredUser where
  id : Nat
  role : String
  availability : Bool
  bloodGroup : String
  location : GeoPoint
  fcmToken : Option String
  deriving DecidableEq, Repr

/-- A stored blood-request document, with the fields findNearbyRequests
touches. -/
structure StoredRequest where
  id : Nat
  status : RequestStatus
  bloodGroup : String
  urgency : String
  createdAt : Int
  location : GeoPoint
  deriving DecidableEq, Repr

/-- Distance-ascending order produced by a $near clause, given the
distance of each document from the query point. -/
def distLe {α : Type} (distTo : α → Int) (a b : α) : Prop :=
  distTo a ≤ distTo b

instance {α : Type} (distTo : α → Int) : DecidableRel (distLe distTo) :=
  fun _ _ => Int.decLe _ _

instance {α : Type} (distTo : α → Int) : IsTotal α (distLe distTo) :=
  ⟨fun _ _ => Int.le_total _ _⟩

instance {α : Type} (distTo : α → Int) : IsTrans α (distLe distTo) :=
  ⟨fun _ _ _ => Int.le_trans⟩

/-- Semantics of a MongoDB $near query clause: keep the documents whose
location lies within maxDistance meters of the query point and return
them ordered by distance ascending.  The geodesic metric itself is a
parameter, supplied by the database engine. -/
def mongoNear {α : Type} (distTo : α → Int) (maxDistance : Int) (docs : List α) :
    List α :=
  List.insertionSort (distLe distTo) (docs.filter fun d => decide (distTo d ≤ maxDistance))

/-- Mongoose select('-fcmToken'): the returned document carries no push
token. -/
def stripFcmToken (u : StoredUser) : StoredUser := { u with fcmToken := none }

/-- Optional blood-group filter of the matcher queries: when a blood group
is passed the query matches on it, otherwise every group matches. -/
def matchesBloodGroup (bloodGroup : Option String) (bg : String) : Bool :=
  match bloodGroup with
  | none => true
  | some g => bg == g

/-- Static User.findNearbyDonors(longitude, latitude, maxDistance,
bloodGroup): a $near query filtered by role DONOR and availability true
(plus the optional blood group), with select('-fcmToken') and no explicit
sort, so the $near distance order is kept. -/
def findNearbyDonors (dist : GeoPoint → GeoPoint → Int) (longitude latitude : Int)
    (maxDistance : Int) (bloodGroup : Option String) (users : List StoredUser) :
    List StoredUser :=
  (mongoNear (fun u => dist (GeoPoint.mk longitude latitude) u.location) maxDistance
      (users.filter fun u =>
        u.role == "DONOR" && u.availability && matchesBloodGroup bloodGroup u.bloodGroup)).map
    stripFcmToken

/-- Static User.findNearbyRequesters(longitude, latitude, maxDistance): a
$near query filtered by role REQUESTER, with select('-fcmToken'). -/
def findNearbyRequesters (dist : GeoPoint → GeoPoint → Int) (longitude latitude : Int)
    (maxDistance : Int) (users : List StoredUser) : List StoredUser :=
  (mongoNear (fun u => dist (GeoPoint.mk longitude latitude) u.location) maxDistance
      (users.filter fun u => u.role == "REQUESTER")).map stripFcmToken

/-- The status filter of findNearbyRequests: status in
[PENDING, ACCEPTED, IN_PROGRESS]. -/
def activeStatus (s : RequestStatus) : Bool :=
  s == RequestStatus.PENDING || s == RequestStatus.ACCEPTED ||
    s == RequestStatus.IN_PROGRESS

/-- The explicit sort of findNearbyRequests, sort with urgency -1 and
createdAt -1: urgency descending in the store's lexicographic string
order, ties broken by createdAt descending. -/
def urgencyCreatedDesc (a b : StoredRequest) : Prop :=
  b.urgency.data < a.urgency.data ∨
    (a.urgency = b.urgency ∧ b.createdAt ≤ a.createdAt)

instance : DecidableRel urgencyCreatedDesc := fun a b => by
  unfold urgencyCreatedDesc
  infer_instance

instance : IsTotal StoredRequest urgencyCreatedDesc := by
  refine ⟨fun a b => ?_⟩
  unfold urgencyCreatedDesc
  rcases lt_trichotomy a.urgency.data b.urgency.data with h | h | h
  · exact Or.inr (Or.inl h)
  · have hequ : a.urgency = b.urgency := String.toList_inj.mp h
    rcases Int.le_total b.createdAt a.createdAt with hc | hc
    · exact Or.inl (Or.inr ⟨hequ, hc⟩)
    · exact Or.inr (Or.inr ⟨hequ.symm, hc⟩)
  · exact Or.inl (Or.inl h)

instance : IsTrans StoredRequest urgencyCreatedDesc := by
  refine ⟨fun a b c hab hbc => ?_⟩
  unfold urgencyCreatedDesc at hab hbc ⊢
  rcases hab with h1 | ⟨h1, h1c⟩
  · rcases hbc with h2 | ⟨h2, h2c⟩
    · exact Or.inl (lt_trans h2 h1)
    · exact Or.inl (h2 ▸ h1)
  · rcases hbc with h2 | ⟨h2, h2c⟩
    · exact Or.inl (h1.symm ▸ h2)
    · exact Or.inr ⟨h1.trans h2, le_trans h2c h1c⟩

/-- Static BloodRequest.findNearbyRequests(longitude, latitude,
maxDistance, bloodGroup): a $near query over requests with status
PENDING, ACCEPTED or IN_PROGRESS (plus the optional blood group), then
re-sorted by sort with urgency -1 and createdAt -1, which overrides the
$near distance order. -/
def findNearbyRequests (dist : GeoPoint → GeoPoint → Int) (longitude latitude : Int)
    (maxDistance : Int) (bloodGroup : Option String) (docs : List StoredRequest) :
    List StoredRequest :=
  List.insertionSort urgencyCreatedDesc
    (mongoNear (fun r => dist (GeoPoint.mk longitude latitude) r.location) maxDistance
      (docs.filter fun r =>
        activeStatus r.status && matchesBloodGroup bloodGroup r.bloodGroup))

lemma mem_mongoNear {α : Type} {distTo : α → Int} {maxD : Int} {docs : List α}
    {x : α} : x ∈ mongoNear distTo maxD docs ↔ x ∈ docs ∧ distTo x ≤ maxD := by
  unfold mongoNear
  rw [List.mem_insertionSort, List.mem_filter]
  simp

/-- A concrete metric used to instantiate the matcher in closed
statements: the taxicab distance between two geo-points. -/
def manhattan (q p : GeoPoint) : Int :=
  |p.longitude - q.longitude| + |p.latitude - q.latitude|

/-- C8 counterexample.  findNearbyRequests does not return its candidates
nearest first: with two in-radius PENDING requests, the farther one with
urgency MEDIUM is listed before the nearer one with urgency LOW, because
the query re-sorts by urgency and creation time, overriding the $near
distance order. -/
theorem findNearbyRequests_sort_cex :
    findNearbyRequests manhattan 0 0 100 none
        [StoredRequest.mk 1 RequestStatus.PENDING "O+" "LOW" 0 ⟨1, 0⟩,
         StoredRequest.mk 2 RequestStatus.PENDING "O+" "MEDIUM" 0 ⟨5, 0⟩] =
      [StoredRequest.mk 2 RequestStatus.PENDING "O+" "MEDIUM" 0 ⟨5, 0⟩,
       StoredRequest.mk 1 RequestStatus.PENDING "O+" "LOW" 0 ⟨1, 0⟩] ∧
    manhattan (GeoPoint.mk 0 0) (GeoPoint.mk 1 0) <
      manhattan (GeoPoint.mk 0 0) (GeoPoint.mk 5 0) := by
  decide

/-- C8 (amended).  The matcher returns only candidates within the radius
that satisfy the role, availability, blood-group and status filters, and
an empty store yields an empty list, not an error; findNearbyDonors keeps
the $near order, so its output is sorted by distance ascending, but
findNearbyRequests re-sorts by urgency descending (in string order) and
creation time descending, so its output is not ordered by distance. -/
theorem proximity_matcher_spec :
    (∀ (dist : GeoPoint → GeoPoint → Int) (lon lat maxD : Int) (bg : Option String)
       (users : List StoredUser) (u : StoredUser),
       u ∈ findNearbyDonors dist lon lat maxD bg users →
       dist (GeoPoint.mk lon lat) u.location ≤ maxD ∧ u.role = "DONOR" ∧
         u.availability = true ∧ matchesBloodGroup bg u.bloodGroup = true) ∧
    (∀ (dist : GeoPoint → GeoPoint → Int) (lon lat maxD : Int) (bg : Option String)
       (users : List StoredUser),
       List.Sorted (distLe fun u => dist (GeoPoint.mk lon lat) u.location)
         (findNearbyDonors dist lon lat maxD bg users)) ∧
    (∀ (dist : GeoPoint → GeoPoint → Int) (lon lat maxD : Int) (bg : Option String)
       (docs : List StoredRequest) (r : StoredRequest),
       r ∈ findNearbyRequests dist lon lat maxD bg docs →
       dist (GeoPoint.mk lon lat) r.location ≤ maxD ∧ activeStatus r.status = true ∧
         matchesBloodGroup bg r.bloodGroup = true) ∧
    (∀ (dist : GeoPoint → GeoPoint → Int) (lon lat maxD : Int) (bg : Option String)
       (docs : List StoredRequest),
       List.Sorted urgencyCreatedDesc (findNearbyRequests dist lon lat maxD bg docs)) ∧
    (∀ (dist : GeoPoint → GeoPoint → Int) (lon lat maxD : Int) (bg : Option String),
       findNearbyDonors dist lon lat maxD bg [] = [] ∧
         findNearbyRequests dist lon lat maxD bg [] = []) := by
  refine ⟨?_, ?_, ?_, ?_, ?_⟩
  · intro dist lon lat maxD bg users u hu
    unfold findNearbyDonors at hu
    rcases List.mem_map.mp hu with ⟨v, hv, rfl⟩
    rcases mem_mongoNear.mp hv with ⟨hvf, hvd⟩
    rcases List.mem_filter.mp hvf with ⟨_, hpred⟩
    simp only [Bool.and_eq_true, beq_iff_eq] at hpred
    exact ⟨hvd, hpred.1.1, hpred.1.2, hpred.2⟩
  · intro dist lon lat maxD bg users
    unfold findNearbyDonors
    refine List.pairwise_map.mpr ?_
    exact (List.sorted_insertionSort
      (distLe fun u : StoredUser => dist (GeoPoint.mk lon lat) u.location) _).imp
      (fun h => h)
  · intro dist lon lat maxD bg docs r hr
    unfold findNearbyRequests at hr
    rw [List.mem_insertionSort] at hr
    rcases mem_mongoNear.mp hr with ⟨hrf, hrd⟩
    rcases List.mem_filter.mp hrf with ⟨_, hpred⟩
    simp only [Bool.and_eq_true] at hpred
    exact ⟨hrd, hpred.1, hpred.2⟩
  · intro dist lon lat maxD bg docs
    exact List.sorted_insertionSort _ _
  · intro dist lon lat maxD bg
    exact ⟨rfl, rfl⟩

/-- C8 witness: the within-radius and filter guarantees of
findNearbyDonors evaluated on a one-donor store. -/
theorem proximity_matcher_spec_witness :
    manhattan (GeoPoint.mk 0 0)
        (stripFcmToken (StoredUser.mk 1 "DONOR" true "O+" ⟨1, 0⟩ (some "tok"))).location ≤ 100 ∧
    (stripFcmToken (StoredUser.mk 1 "DONOR" true "O+" ⟨1, 0⟩ (some "tok"))).role = "DONOR" ∧
    (stripFcmToken (StoredUser.mk 1 "DONOR" true "O+" ⟨1, 0⟩ (some "tok"))).availability = true ∧
    matchesBloodGroup none
        (stripFcmToken (StoredUser.mk 1 "DONOR" true "O+" ⟨1, 0⟩ (some "tok"))).bloodGroup =
      true :=
  proximity_matcher_spec.1 manhattan 0 0 100 none
    [StoredUser.mk 1 "DONOR" true "O+" ⟨1, 0⟩ (some "tok")]
    (stripFcmToken (StoredUser.mk 1 "DONOR" true "O+" ⟨1, 0⟩ (some "tok")))
    (by decide)

/-- C10.  Push tokens never leave the proximity matcher: every user
document returned by findNearbyDonors or findNearbyRequesters has its
fcmToken field stripped by select('-fcmToken'), whatever the stored
documents contain. -/
theorem matcher_strips_fcmToken :
    (∀ (dist : GeoPoint → GeoPoint → Int) (lon lat maxD : Int) (bg : Option String)
       (users : List StoredUser) (u : StoredUser),
       u ∈ findNearbyDonors dist lon lat maxD bg users → u.fcmToken = none) ∧
    (∀ (dist : GeoPoint → GeoPoint → Int) (lon lat maxD : Int)
       (users : List StoredUser) (u : StoredUser),
       u ∈ findNearbyRequesters dist lon lat maxD users → u.fcmToken = none) := by
  constructor
  · intro dist lon lat maxD bg users u hu
    unfold findNearbyDonors at hu
    rcases List.mem_map.mp hu with ⟨v, _, rfl⟩
    rfl
  · intro dist lon lat maxD users u hu
    unfold findNearbyRequesters at hu
    rcases List.mem_map.mp hu with ⟨v, _, rfl⟩
    rfl

/-- C10 witness: the stripping guarantee evaluated on a one-donor store
whose document does carry a push token. -/
theorem matcher_strips_fcmToken_witness :
    (stripFcmToken (StoredUser.mk 1 "DONOR" true "O+" ⟨1, 0⟩ (some "tok"))).fcmToken = none :=
  matcher_strips_fcmToken.1 manhattan 0 0 100 none
    [StoredUser.mk 1 "DONOR" true "O+" ⟨1, 0⟩ (some "tok")]
    (stripFcmToken (StoredUser.mk 1 "DONOR" true "O+" ⟨1, 0⟩ (some "tok")))
    (by decide)

/-! ### Notification fan-out and request creation (claim C9) -/

/-- The response of a successful admin.messaging().sendMulticast call. -/
structure SdkResponse where
  successCount : Nat
  failureCount : Nat
  deriving DecidableEq, Repr

/-- The value sendMulticastNotification resolves with: the SDK counts on
success, a success false flag together with a reason when Firebase is not
configured, or together with the caught error message when the SDK
rejects.  The wrapper never rethrows. -/
structure MulticastResult where
  successCount : Nat
  failureCount : Nat
  success : Option Bool
  reason : Option String
  errorMsg : Option String
  deriving DecidableEq, Repr

/-- sendMulticastNotification(tokens, title, body, data) of
src/src/config/firebase.js: when admin.apps.length is 0 it returns a
structured failure with successCount 0 and failureCount tokens.length;
otherwise it forwards the SDK response, and converts an SDK rejection
into the analogous structured failure instead of throwing.  The count of
initialized Firebase apps and the SDK outcome are parameters of the
model. -/
def sendMulticastNotification (firebaseApps : Nat)
    (sdkSend : Except String SdkResponse) (tokens : List String) : MulticastResult :=
  if firebaseApps = 0 then
    { successCount := 0, failureCount := tokens.length, success := some false,
      reason := some "Firebase not configured", errorMsg := none }
  else
    match sdkSend with
    | .ok r =>
      { successCount := r.successCount, failureCount := r.failureCount,
        success := none, reason := none, errorMsg := none }
    | .error e =>
      { successCount := 0, failureCount := tokens.length, success := some false,
        reason := none, errorMsg := some e }

/-- The JSON body the POST /api/requests handler answers with on the
success path: HTTP status 201, the success message, notificationsSent
(the boolean notificationsSent > 0 of the route) and notificationError. -/
structure CreateResponse where
  httpStatus : Nat
  message : String
  notificationsSent : Bool
  notificationError : Option String
  deriving DecidableEq, Repr

/-- Outcome of the handler: the HTTP response plus the persisted request
document. -/
structure CreateOutcome where
  response : CreateResponse
  saved : Option BloodRequest
  deriving DecidableEq, Repr

/-- The 201 body res.status(201).json built by the route in every success
branch: creation message, notificationsSent boolean and
notificationError. -/
def createdResponse (sent : Bool) (err : Option String) : CreateResponse :=
  { httpStatus := 201, message := "Blood request created successfully",
    notificationsSent := sent, notificationError := err }

/-- The POST /api/requests handler of src/src/routes/otp.js, after
validation passed and request.save() succeeded (the save runs the
pre-save hook): it looks up nearby donors with a non-null fcmToken
(modelled by the donorLookup parameter, an exception it raises is caught
by the inner try block), collects their truthy tokens, calls
sendMulticastNotification when there is at least one token while ignoring
its return value, and always responds 201 with the creation message;
notificationError is set only when the donor-lookup and notification
block threw. -/
def createRequestHandler (now : Int) (reqDoc : BloodRequest) (firebaseApps : Nat)
    (sdkSend : Except String SdkResponse)
    (donorLookup : Except String (List StoredUser)) : CreateOutcome :=
  let saved := preSaveHook now reqDoc
  match donorLookup with
  | .error e =>
    { response := createdResponse false (some e), saved := some saved }
  | .ok donors =>
    let tokens := (donors.filterMap fun d => d.fcmToken).filter fun t => decide (t ≠ "")
    if 0 < tokens.length then
      let _multicast := sendMulticastNotification firebaseApps sdkSend tokens
      { response := createdResponse true none, saved := some saved }
    else
      { response := createdResponse false none, saved := some saved }

/-- C9 counterexample.  With Firebase unconfigured and one nearby donor
holding a token, the multicast send fails structurally (successCount 0,
failureCount 1), yet the 201 response payload reports notificationsSent
true and no notificationError: the delivery failure is not reported in
the response payload. -/
theorem notification_report_cex :
    (sendMulticastNotification 0 (.error "unused") ["tok1"]).successCount = 0 ∧
    (sendMulticastNotification 0 (.error "unused") ["tok1"]).failureCount = 1 ∧
    (createRequestHandler 0 (mkRequest 1 "O+" 1 "H" ⟨0, 0⟩ "MEDIUM" 1000) 0 (.error "unused")
        (.ok [StoredUser.mk 1 "DONOR" true "O+" ⟨1, 0⟩ (some "tok1")])).response =
      { httpStatus := 201, message := "Blood request created successfully",
        notificationsSent := true, notificationError := none } := by
  decide

/-- C9 (amended).  When the push backend is unconfigured (or the SDK
rejects) the multicast send returns a structured failure with
successCount 0 and failureCount tokens.length carrying a reason or error
field, instead of throwing; the POST /api/requests handler always
persists the request and responds 201 with the creation message whatever
the notification outcome; however the payload's notificationsSent flag
only records whether tokens were attempted and notificationError is set
only when the donor-lookup block throws, so a structured multicast
failure goes unreported. -/
theorem notification_best_effort_spec :
    (∀ (sdkSend : Except String SdkResponse) (tokens : List String),
       sendMulticastNotification 0 sdkSend tokens =
         { successCount := 0, failureCount := tokens.length, success := some false,
           reason := some "Firebase not configured", errorMsg := none }) ∧
    (∀ (k : Nat) (e : String) (tokens : List String),
       sendMulticastNotification (k + 1) (.error e) tokens =
         { successCount := 0, failureCount := tokens.length, success := some false,
           reason := none, errorMsg := some e }) ∧
    (∀ (now : Int) (reqDoc : BloodRequest) (firebaseApps : Nat)
       (sdkSend : Except String SdkResponse)
       (donorLookup : Except String (List StoredUser)),
       (createRequestHandler now reqDoc firebaseApps sdkSend donorLookup).response.httpStatus
           = 201 ∧
         (createRequestHandler now reqDoc firebaseApps sdkSend donorLookup).response.message
           = "Blood request created successfully" ∧
         (createRequestHandler now reqDoc firebaseApps sdkSend donorLookup).saved
           = some (preSaveHook now reqDoc)) := by
  refine ⟨fun sdkSend tokens => rfl, fun k e tokens => rfl, ?_⟩
  intro now reqDoc firebaseApps sdkSend donorLookup
  unfold createRequestHandler
  cases donorLookup with
  | error e => exact ⟨rfl, rfl, rfl⟩
  | ok donors =>
    simp only []
    split
    · exact ⟨rfl, rfl, rfl⟩
    · exact ⟨rfl, rfl, rfl⟩

end LPB
